import Mathlib

/-!
Verification of the AQI calculator of the SunSafe application
(`src/App.js`, the `AQI` component).

The calculator turns a raw PM2.5 concentration into a US EPA air-quality
index and a health category by scanning a fixed seven-row breakpoint table
and linearly interpolating inside the matching band.  The JavaScript
source is embedded shallowly:

* concentrations are modelled as exact rationals (`ℚ`);
* `Math.round` is `⌊x + 1/2⌋` (JavaScript rounds half toward +∞);
* the loop over `breakpoints` with its `indexOf(bp) - 1` lookup of the
  previous band's upper index is modelled as a structural scan that
  threads the previous band's `AQIh` (0 before the first band, matching
  `breakpoints[-1]?.AQIh || 0`);
* the component's possible inputs are modelled by `PMInput`; JavaScript
  value semantics are reflected case by case: `undefined`, `null` and
  `NaN` are caught by the guard on line 10, while the empty string passes
  `isNaN` (`Number("") = 0`) and then behaves as the number 0 in the
  comparisons and arithmetic of the scan;
* the rendered output is either the dash placeholder or a value/category
  pair (`AQIOutput`); colours are presentational and not modelled.
-/

namespace SunSafe

/-- One row of the US EPA PM2.5 breakpoint table, with the field names of
the source: upper AQI value `AQIh`, inclusive concentration range
`Cl`–`Ch`, and the category label. -/
structure Breakpoint where
  AQIh : ℤ
  Cl : ℚ
  Ch : ℚ
  category : String
deriving DecidableEq

/-- The breakpoint table of `App.js` lines 11–19, exact values. -/
def breakpoints : List Breakpoint :=
  [ ⟨50,  0,     12,    "Good"⟩,
    ⟨100, 12.1,  35.4,  "Moderate"⟩,
    ⟨150, 35.5,  55.4,  "Unhealthy for Sensitive"⟩,
    ⟨200, 55.5,  150.4, "Unhealthy"⟩,
    ⟨300, 150.5, 250.4, "Very Unhealthy"⟩,
    ⟨400, 250.5, 350.4, "Hazardous"⟩,
    ⟨500, 350.5, 500.4, "Extremely Hazardous"⟩ ]

/-- JavaScript `Math.round`: round half toward positive infinity. -/
def jsRound (x : ℚ) : ℤ := ⌊x + 1 / 2⌋

/-- The linear interpolation of `App.js` lines 26–28:
`((AQIh - AQIl) / (Ch - Cl)) * (pm2_5 - Cl) + AQIl` (before rounding). -/
def interp (AQIl : ℤ) (bp : Breakpoint) (q : ℚ) : ℚ :=
  (((bp.AQIh : ℚ) - (AQIl : ℚ)) / (bp.Ch - bp.Cl)) * (q - bp.Cl) + (AQIl : ℚ)

/-- The scan of `App.js` lines 21–32: walk the table in order, return the
first band whose inclusive range contains `q` together with the previous
band's `AQIh` (`breakpoints[indexOf(bp) - 1]?.AQIh || 0`, which is 0 before
the first band); `none` when no band matches. -/
def findBand (q : ℚ) : ℤ → List Breakpoint → Option (ℤ × Breakpoint)
  | _, [] => none
  | prev, bp :: rest =>
      if bp.Cl ≤ q ∧ q ≤ bp.Ch then some (prev, bp)
      else findBand q bp.AQIh rest

/-- Rendered output of the `AQI` component: the dash placeholder `"—"`,
or the rounded index together with its category label. -/
inductive AQIOutput where
  | dash
  | result (value : ℤ) (category : String)
deriving DecidableEq

/-- The numeric path of the `AQI` component (`App.js` lines 20–41):
`aqi` starts at 0, the scan may set it to the rounded interpolation, and
`if (aqi === 0) return "—"` collapses both "no band matched" and "the
computed index is 0" to the dash. -/
def numAQI (q : ℚ) : AQIOutput :=
  match findBand q 0 breakpoints with
  | none => AQIOutput.dash
  | some (AQIl, bp) =>
      let aqi := jsRound (interp AQIl bp q)
      if aqi = 0 then AQIOutput.dash else AQIOutput.result aqi bp.category

/-- Inputs the `pm2_5` prop can take in the claims: `undefined`, `null`,
`NaN`, the empty string, or a finite number (modelled as an exact
rational). -/
inductive PMInput where
  | undef
  | jsNull
  | nan
  | emptyStr
  | num (q : ℚ)

/-- The `AQI` component (`App.js` lines 9–42).  `undefined`, `null` and
`NaN` fail the guard `pm2_5 === undefined || pm2_5 === null ||
isNaN(pm2_5)` and give the dash.  The empty string passes the guard
(`isNaN("") === false` because `Number("") = 0`) and is then coerced to 0
by `>=`, `<=` and `-` inside the scan, so it follows the numeric path at
0.  A number follows the numeric path at its value. -/
def AQI : PMInput → AQIOutput
  | .undef => AQIOutput.dash
  | .jsNull => AQIOutput.dash
  | .nan => AQIOutput.dash
  | .emptyStr => numAQI 0
  | .num q => numAQI q

/-- Previous band's upper index as the claims phrase it: the `AQIh` of row
`i - 1` of the table, or 0 for the first row. -/
def AQIlow (i : ℕ) : ℤ :=
  if i = 0 then 0 else ((breakpoints.get? (i - 1)).map Breakpoint.AQIh).getD 0

/-- Value projection of an output: the index when present. -/
def aqiValue : AQIOutput → Option ℤ
  | .dash => none
  | .result v _ => some v

/-! Rows of the table, as definitional equalities usable for rewriting. -/

lemma bp_get0 {h : 0 < breakpoints.length} :
    breakpoints.get ⟨0, h⟩ = ⟨50, 0, 12, "Good"⟩ := rfl

lemma bp_get1 {h : 1 < breakpoints.length} :
    breakpoints.get ⟨1, h⟩ = ⟨100, 12.1, 35.4, "Moderate"⟩ := rfl

lemma bp_get2 {h : 2 < breakpoints.length} :
    breakpoints.get ⟨2, h⟩ = ⟨150, 35.5, 55.4, "Unhealthy for Sensitive"⟩ := rfl

lemma bp_get3 {h : 3 < breakpoints.length} :
    breakpoints.get ⟨3, h⟩ = ⟨200, 55.5, 150.4, "Unhealthy"⟩ := rfl

lemma bp_get4 {h : 4 < breakpoints.length} :
    breakpoints.get ⟨4, h⟩ = ⟨300, 150.5, 250.4, "Very Unhealthy"⟩ := rfl

lemma bp_get5 {h : 5 < breakpoints.length} :
    breakpoints.get ⟨5, h⟩ = ⟨400, 250.5, 350.4, "Hazardous"⟩ := rfl

lemma bp_get6 {h : 6 < breakpoints.length} :
    breakpoints.get ⟨6, h⟩ = ⟨500, 350.5, 500.4, "Extremely Hazardous"⟩ := rfl

lemma AQIlow0 : AQIlow 0 = 0 := rfl
lemma AQIlow1 : AQIlow 1 = 50 := rfl
lemma AQIlow2 : AQIlow 2 = 100 := rfl
lemma AQIlow3 : AQIlow 3 = 150 := rfl
lemma AQIlow4 : AQIlow 4 = 200 := rfl
lemma AQIlow5 : AQIlow 5 = 300 := rfl
lemma AQIlow6 : AQIlow 6 = 400 := rfl

/-! Elementary facts about the JavaScript rounding function. -/

lemma jsRound_nonneg {x : ℚ} (h : 0 ≤ x) : 0 ≤ jsRound x := by
  unfold jsRound
  exact Int.le_floor.mpr (by push_cast; linarith)

lemma jsRound_le {x : ℚ} {n : ℤ} (h : x ≤ (n : ℚ)) : jsRound x ≤ n := by
  unfold jsRound
  have hlt : ⌊x + 1 / 2⌋ < n + 1 := Int.floor_lt.mpr (by push_cast; linarith)
  omega

lemma jsRound_mono {x y : ℚ} (h : x ≤ y) : jsRound x ≤ jsRound y :=
  Int.floor_le_floor (by linarith)

/-! Elementary facts about the interpolation map. -/

lemma interp_mono (AQIl : ℤ) (bp : Breakpoint) (hlc : bp.Cl < bp.Ch)
    (hA : (AQIl : ℚ) ≤ (bp.AQIh : ℚ)) {x y : ℚ} (hxy : x ≤ y) :
    interp AQIl bp x ≤ interp AQIl bp y := by
  unfold interp
  have hs : 0 ≤ ((bp.AQIh : ℚ) - (AQIl : ℚ)) / (bp.Ch - bp.Cl) :=
    div_nonneg (by linarith) (by linarith)
  have := mul_le_mul_of_nonneg_left (by linarith : x - bp.Cl ≤ y - bp.Cl) hs
  linarith

lemma interp_ge (AQIl : ℤ) (bp : Breakpoint) (hlc : bp.Cl < bp.Ch)
    (hA : (AQIl : ℚ) ≤ (bp.AQIh : ℚ)) {q : ℚ} (hq : bp.Cl ≤ q) :
    (AQIl : ℚ) ≤ interp AQIl bp q := by
  have h0 : interp AQIl bp bp.Cl = (AQIl : ℚ) := by simp [interp]
  calc (AQIl : ℚ) = interp AQIl bp bp.Cl := h0.symm
    _ ≤ interp AQIl bp q := interp_mono AQIl bp hlc hA hq

lemma interp_le (AQIl : ℤ) (bp : Breakpoint) (hlc : bp.Cl < bp.Ch)
    (hA : (AQIl : ℚ) ≤ (bp.AQIh : ℚ)) {q : ℚ} (hq : q ≤ bp.Ch) :
    interp AQIl bp q ≤ (bp.AQIh : ℚ) := by
  have hne : bp.Ch - bp.Cl ≠ 0 := by intro h; linarith [sub_eq_zero.mp h]
  have h0 : interp AQIl bp bp.Ch = (bp.AQIh : ℚ) := by
    unfold interp
    rw [div_mul_eq_mul_div, mul_comm, ← div_mul_eq_mul_div, div_self hne]
    ring
  calc interp AQIl bp q ≤ interp AQIl bp bp.Ch := interp_mono AQIl bp hlc hA hq
    _ = (bp.AQIh : ℚ) := h0

/-- Exhaustive case analysis of the scan: either no band matched, or the
scan stopped at one of the seven rows, in which case `q` satisfies that
row's inclusive bounds and the returned `AQIl` is the previous row's
`AQIh`. -/
lemma findBand_cases (q : ℚ) :
    ((¬ ((0:ℚ) ≤ q ∧ q ≤ 12)) ∧ (¬ ((12.1:ℚ) ≤ q ∧ q ≤ 35.4)) ∧
     (¬ ((35.5:ℚ) ≤ q ∧ q ≤ 55.4)) ∧ (¬ ((55.5:ℚ) ≤ q ∧ q ≤ 150.4)) ∧
     (¬ ((150.5:ℚ) ≤ q ∧ q ≤ 250.4)) ∧ (¬ ((250.5:ℚ) ≤ q ∧ q ≤ 350.4)) ∧
     (¬ ((350.5:ℚ) ≤ q ∧ q ≤ 500.4)) ∧
     findBand q 0 breakpoints = none) ∨
    ((0:ℚ) ≤ q ∧ q ≤ 12 ∧
      findBand q 0 breakpoints = some (0, ⟨50, 0, 12, "Good"⟩)) ∨
    ((12.1:ℚ) ≤ q ∧ q ≤ 35.4 ∧
      findBand q 0 breakpoints = some (50, ⟨100, 12.1, 35.4, "Moderate"⟩)) ∨
    ((35.5:ℚ) ≤ q ∧ q ≤ 55.4 ∧
      findBand q 0 breakpoints =
        some (100, ⟨150, 35.5, 55.4, "Unhealthy for Sensitive"⟩)) ∨
    ((55.5:ℚ) ≤ q ∧ q ≤ 150.4 ∧
      findBand q 0 breakpoints = some (150, ⟨200, 55.5, 150.4, "Unhealthy"⟩)) ∨
    ((150.5:ℚ) ≤ q ∧ q ≤ 250.4 ∧
      findBand q 0 breakpoints =
        some (200, ⟨300, 150.5, 250.4, "Very Unhealthy"⟩)) ∨
    ((250.5:ℚ) ≤ q ∧ q ≤ 350.4 ∧
      findBand q 0 breakpoints = some (300, ⟨400, 250.5, 350.4, "Hazardous"⟩)) ∨
    ((350.5:ℚ) ≤ q ∧ q ≤ 500.4 ∧
      findBand q 0 breakpoints =
        some (400, ⟨500, 350.5, 500.4, "Extremely Hazardous"⟩)) := by
  by_cases h1 : (0:ℚ) ≤ q ∧ q ≤ 12
  · exact Or.inr (Or.inl ⟨h1.1, h1.2, by
      simp only [breakpoints, findBand, if_pos h1]⟩)
  by_cases h2 : (12.1:ℚ) ≤ q ∧ q ≤ 35.4
  · exact Or.inr (Or.inr (Or.inl ⟨h2.1, h2.2, by
      simp only [breakpoints, findBand, if_neg h1, if_pos h2]⟩))
  by_cases h3 : (35.5:ℚ) ≤ q ∧ q ≤ 55.4
  · exact Or.inr (Or.inr (Or.inr (Or.inl ⟨h3.1, h3.2, by
      simp only [breakpoints, findBand, if_neg h1, if_neg h2, if_pos h3]⟩)))
  by_cases h4 : (55.5:ℚ) ≤ q ∧ q ≤ 150.4
  · exact Or.inr (Or.inr (Or.inr (Or.inr (Or.inl ⟨h4.1, h4.2, by
      simp only [breakpoints, findBand, if_neg h1, if_neg h2, if_neg h3,
        if_pos h4]⟩))))
  by_cases h5 : (150.5:ℚ) ≤ q ∧ q ≤ 250.4
  · exact Or.inr (Or.inr (Or.inr (Or.inr (Or.inr (Or.inl ⟨h5.1, h5.2, by
      simp only [breakpoints, findBand, if_neg h1, if_neg h2, if_neg h3,
        if_neg h4, if_pos h5]⟩)))))
  by_cases h6 : (250.5:ℚ) ≤ q ∧ q ≤ 350.4
  · exact Or.inr (Or.inr (Or.inr (Or.inr (Or.inr (Or.inr (Or.inl
      ⟨h6.1, h6.2, by
        simp only [breakpoints, findBand, if_neg h1, if_neg h2, if_neg h3,
          if_neg h4, if_neg h5, if_pos h6]⟩))))))
  by_cases h7 : (350.5:ℚ) ≤ q ∧ q ≤ 500.4
  · exact Or.inr (Or.inr (Or.inr (Or.inr (Or.inr (Or.inr (Or.inr
      ⟨h7.1, h7.2, by
        simp only [breakpoints, findBand, if_neg h1, if_neg h2, if_neg h3,
          if_neg h4, if_neg h5, if_neg h6, if_pos h7]⟩))))))
  exact Or.inl ⟨h1, h2, h3, h4, h5, h6, h7, by
    simp only [breakpoints, findBand, if_neg h1, if_neg h2, if_neg h3,
      if_neg h4, if_neg h5, if_neg h6, if_neg h7]⟩

lemma numAQI_none (q : ℚ) (hf : findBand q 0 breakpoints = none) :
    numAQI q = AQIOutput.dash := by
  simp [numAQI, hf]

lemma numAQI_zero_dash : numAQI 0 = AQIOutput.dash := by
  norm_num [numAQI, findBand, breakpoints, jsRound, interp]

/-- Characterization of the numeric path on a concentration lying in row
`i` of the table: the component computes the rounded interpolation against
the previous row's upper index and dashes exactly when it rounds to 0. -/
lemma numAQI_band (i : ℕ) (hi : i < breakpoints.length) (q : ℚ)
    (hlo : (breakpoints.get ⟨i, hi⟩).Cl ≤ q)
    (hhi : q ≤ (breakpoints.get ⟨i, hi⟩).Ch) :
    numAQI q =
      if jsRound (interp (AQIlow i) (breakpoints.get ⟨i, hi⟩) q) = 0
      then AQIOutput.dash
      else AQIOutput.result
        (jsRound (interp (AQIlow i) (breakpoints.get ⟨i, hi⟩) q))
        (breakpoints.get ⟨i, hi⟩).category := by
  have hi7 : i < 7 := by simpa [breakpoints] using hi
  interval_cases i
  · have hlo' : (0:ℚ) ≤ q := hlo
    have hhi' : q ≤ (12:ℚ) := hhi
    rcases findBand_cases q with ⟨n1, n2, n3, n4, n5, n6, n7, hf⟩ | ⟨a, b, hf⟩ |
        ⟨a, b, hf⟩ | ⟨a, b, hf⟩ | ⟨a, b, hf⟩ | ⟨a, b, hf⟩ | ⟨a, b, hf⟩ | ⟨a, b, hf⟩ <;>
      first
        | (exact absurd (And.intro hlo' hhi') (by assumption))
        | (exfalso; linarith)
        | (rw [bp_get0, AQIlow0]; simp [numAQI, hf])
  · have hlo' : (12.1:ℚ) ≤ q := hlo
    have hhi' : q ≤ (35.4:ℚ) := hhi
    rcases findBand_cases q with ⟨n1, n2, n3, n4, n5, n6, n7, hf⟩ | ⟨a, b, hf⟩ |
        ⟨a, b, hf⟩ | ⟨a, b, hf⟩ | ⟨a, b, hf⟩ | ⟨a, b, hf⟩ | ⟨a, b, hf⟩ | ⟨a, b, hf⟩ <;>
      first
        | (exact absurd (And.intro hlo' hhi') (by assumption))
        | (exfalso; linarith)
        | (rw [bp_get1, AQIlow1]; simp [numAQI, hf])
  · have hlo' : (35.5:ℚ) ≤ q := hlo
    have hhi' : q ≤ (55.4:ℚ) := hhi
    rcases findBand_cases q with ⟨n1, n2, n3, n4, n5, n6, n7, hf⟩ | ⟨a, b, hf⟩ |
        ⟨a, b, hf⟩ | ⟨a, b, hf⟩ | ⟨a, b, hf⟩ | ⟨a, b, hf⟩ | ⟨a, b, hf⟩ | ⟨a, b, hf⟩ <;>
      first
        | (exact absurd (And.intro hlo' hhi') (by assumption))
        | (exfalso; linarith)
        | (rw [bp_get2, AQIlow2]; simp [numAQI, hf])
  · have hlo' : (55.5:ℚ) ≤ q := hlo
    have hhi' : q ≤ (150.4:ℚ) := hhi
    rcases findBand_cases q with ⟨n1, n2, n3, n4, n5, n6, n7, hf⟩ | ⟨a, b, hf⟩ |
        ⟨a, b, hf⟩ | ⟨a, b, hf⟩ | ⟨a, b, hf⟩ | ⟨a, b, hf⟩ | ⟨a, b, hf⟩ | ⟨a, b, hf⟩ <;>
      first
        | (exact absurd (And.intro hlo' hhi') (by assumption))
        | (exfalso; linarith)
        | (rw [bp_get3, AQIlow3]; simp [numAQI, hf])
  · have hlo' : (150.5:ℚ) ≤ q := hlo
    have hhi' : q ≤ (250.4:ℚ) := hhi
    rcases findBand_cases q with ⟨n1, n2, n3, n4, n5, n6, n7, hf⟩ | ⟨a, b, hf⟩ |
        ⟨a, b, hf⟩ | ⟨a, b, hf⟩ | ⟨a, b, hf⟩ | ⟨a, b, hf⟩ | ⟨a, b, hf⟩ | ⟨a, b, hf⟩ <;>
      first
        | (exact absurd (And.intro hlo' hhi') (by assumption))
        | (exfalso; linarith)
        | (rw [bp_get4, AQIlow4]; simp [numAQI, hf])
  · have hlo' : (250.5:ℚ) ≤ q := hlo
    have hhi' : q ≤ (350.4:ℚ) := hhi
    rcases findBand_cases q with ⟨n1, n2, n3, n4, n5, n6, n7, hf⟩ | ⟨a, b, hf⟩ |
        ⟨a, b, hf⟩ | ⟨a, b, hf⟩ | ⟨a, b, hf⟩ | ⟨a, b, hf⟩ | ⟨a, b, hf⟩ | ⟨a, b, hf⟩ <;>
      first
        | (exact absurd (And.intro hlo' hhi') (by assumption))
        | (exfalso; linarith)
        | (rw [bp_get5, AQIlow5]; simp [numAQI, hf])
  · have hlo' : (350.5:ℚ) ≤ q := hlo
    have hhi' : q ≤ (500.4:ℚ) := hhi
    rcases findBand_cases q with ⟨n1, n2, n3, n4, n5, n6, n7, hf⟩ | ⟨a, b, hf⟩ |
        ⟨a, b, hf⟩ | ⟨a, b, hf⟩ | ⟨a, b, hf⟩ | ⟨a, b, hf⟩ | ⟨a, b, hf⟩ | ⟨a, b, hf⟩ <;>
      first
        | (exact absurd (And.intro hlo' hhi') (by assumption))
        | (exfalso; linarith)
        | (rw [bp_get6, AQIlow6]; simp [numAQI, hf])

/-- When the scan stops at a row satisfying the table's shape invariants,
a rendered result carries the rounded interpolation (clamped in `[1, 500]`
by those invariants and the zero check) and the row's category. -/
lemma result_bounds_aux (q : ℚ) (AQIl : ℤ) (bp : Breakpoint) (v : ℤ) (c : String)
    (hlc : bp.Cl < bp.Ch) (hA : (AQIl : ℚ) ≤ (bp.AQIh : ℚ)) (hA0 : 0 ≤ AQIl)
    (hup : bp.AQIh ≤ 500) (hlo : bp.Cl ≤ q) (hhi : q ≤ bp.Ch)
    (hf : findBand q 0 breakpoints = some (AQIl, bp))
    (h : numAQI q = AQIOutput.result v c) :
    1 ≤ v ∧ v ≤ 500 ∧ c = bp.category := by
  simp only [numAQI, hf] at h
  by_cases hz : jsRound (interp AQIl bp q) = 0
  · rw [if_pos hz] at h
    exact absurd h (by simp)
  · rw [if_neg hz] at h
    simp only [AQIOutput.result.injEq] at h
    obtain ⟨hv, hc⟩ := h
    have hge : (0:ℚ) ≤ interp AQIl bp q :=
      le_trans (by exact_mod_cast hA0) (interp_ge AQIl bp hlc hA hlo)
    have h0 : 0 ≤ jsRound (interp AQIl bp q) := jsRound_nonneg hge
    have h500 : jsRound (interp AQIl bp q) ≤ 500 :=
      jsRound_le (le_trans (interp_le AQIl bp hlc hA hhi) (by exact_mod_cast hup))
    refine ⟨?_, ?_, hc.symm⟩ <;> omega

/-- Shape facts about the table rows used by the range and monotonicity
arguments: each row has a nonempty concentration range, its upper index
dominates the previous row's, the previous index is nonnegative and the
upper index is at most 500. -/
lemma table_shape (i : ℕ) (hi : i < breakpoints.length) :
    (breakpoints.get ⟨i, hi⟩).Cl < (breakpoints.get ⟨i, hi⟩).Ch ∧
    ((AQIlow i : ℚ) ≤ ((breakpoints.get ⟨i, hi⟩).AQIh : ℚ)) ∧
    0 ≤ AQIlow i ∧ (breakpoints.get ⟨i, hi⟩).AQIh ≤ 500 := by
  have hi7 : i < 7 := by simpa [breakpoints] using hi
  interval_cases i <;> norm_num [breakpoints, AQIlow]

/-- C1 counterexample: at the concentration 0.1 the first band matches
(0 ≤ 0.1 ≤ 12) and the interpolated index rounds to 0, but the component
renders the dash rather than a result carrying that value. -/
theorem interpolation_claim_counterexample :
    (0:ℚ) ≤ (0.1:ℚ) ∧ (0.1:ℚ) ≤ 12 ∧
    jsRound (interp (AQIlow 0) ⟨50, 0, 12, "Good"⟩ 0.1) = 0 ∧
    AQI (PMInput.num 0.1) = AQIOutput.dash ∧
    AQI (PMInput.num 0.1) ≠ AQIOutput.result 0 "Good" := by
  have hd : AQI (PMInput.num 0.1) = AQIOutput.dash := by
    show numAQI 0.1 = _
    norm_num [numAQI, findBand, breakpoints, jsRound, interp]
  refine ⟨by norm_num, by norm_num, ?_, hd, by rw [hd]; simp⟩
  rw [AQIlow0]
  norm_num [jsRound, interp]

/-- C1 (amended): for a concentration in row `i` of the table whose
interpolated index does not round to 0, the component renders exactly the
rounded linear interpolation against the previous row's upper index,
with that row's category. -/
theorem aqi_interpolation_in_band (i : ℕ) (hi : i < breakpoints.length) (q : ℚ)
    (hlo : (breakpoints.get ⟨i, hi⟩).Cl ≤ q)
    (hhi : q ≤ (breakpoints.get ⟨i, hi⟩).Ch)
    (hnz : jsRound (interp (AQIlow i) (breakpoints.get ⟨i, hi⟩) q) ≠ 0) :
    AQI (PMInput.num q) =
      AQIOutput.result
        (jsRound (interp (AQIlow i) (breakpoints.get ⟨i, hi⟩) q))
        ((breakpoints.get ⟨i, hi⟩).category) := by
  show numAQI q = _
  rw [numAQI_band i hi q hlo hhi, if_neg hnz]

/-- C1 witness: the amended interpolation theorem applied in the first
band at concentration 6 yields index 25 with category Good. -/
theorem aqi_interpolation_in_band_witness :
    AQI (PMInput.num 6) = AQIOutput.result 25 "Good" := by
  have e : jsRound (interp (AQIlow 0) (⟨50, 0, 12, "Good"⟩ : Breakpoint) 6) = 25 := by
    rw [AQIlow0]
    norm_num [jsRound, interp]
  have h := aqi_interpolation_in_band 0 (by norm_num [breakpoints]) 6
    (by rw [bp_get0]; norm_num)
    (by rw [bp_get0]; norm_num)
    (by rw [bp_get0, e]; norm_num)
  rw [bp_get0, e] at h
  exact h

/-- C2: evaluating the code at concentration 0: the first band matches
(0 ≤ 0 ≤ 12) and the interpolation yields index 0 with category Good,
yet the component renders the dash, because `if (aqi === 0) return "—"`
conflates a genuine zero index with the no-match sentinel. -/
theorem aqi_at_zero_concentration_dash :
    findBand 0 0 breakpoints = some (0, ⟨50, 0, 12, "Good"⟩) ∧
    AQI (PMInput.num 0) = AQIOutput.dash := by
  constructor
  · norm_num [breakpoints, findBand]
  · exact numAQI_zero_dash

/-- C3: every absent input — `undefined`, `null`, `NaN`, or the empty
string — renders the dash (no index, no category). -/
theorem absent_inputs_dash :
    AQI PMInput.undef = AQIOutput.dash ∧
    AQI PMInput.jsNull = AQIOutput.dash ∧
    AQI PMInput.nan = AQIOutput.dash ∧
    AQI PMInput.emptyStr = AQIOutput.dash :=
  ⟨rfl, rfl, rfl, numAQI_zero_dash⟩

/-- C4 counterexample: at concentration 12.1 the component renders index
50 (the interpolation at the lower edge of the second band collapses to
the previous band's `AQIh`), not the claimed 51. -/
theorem boundary_12_1_counterexample :
    AQI (PMInput.num 12.1) = AQIOutput.result 50 "Moderate" ∧
    AQI (PMInput.num 12.1) ≠ AQIOutput.result 51 "Moderate" := by
  have h : AQI (PMInput.num 12.1) = AQIOutput.result 50 "Moderate" := by
    show numAQI 12.1 = _
    norm_num [numAQI, findBand, breakpoints, jsRound, interp]
  exact ⟨h, by rw [h]; simp⟩

/-- C4 (amended): the spec's boundary test points against the code:
12.0 gives 50/Good, 12.1 gives 50/Moderate (the value does not jump
across the seam; only the category changes), and 500.4 gives
500/Extremely Hazardous. -/
theorem boundary_points :
    AQI (PMInput.num 12) = AQIOutput.result 50 "Good" ∧
    AQI (PMInput.num 12.1) = AQIOutput.result 50 "Moderate" ∧
    AQI (PMInput.num 500.4) = AQIOutput.result 500 "Extremely Hazardous" := by
  refine ⟨?_, ?_, ?_⟩
  · show numAQI 12 = _
    norm_num [numAQI, findBand, breakpoints, jsRound, interp]
  · show numAQI 12.1 = _
    norm_num [numAQI, findBand, breakpoints, jsRound, interp]
  · show numAQI 500.4 = _
    norm_num [numAQI, findBand, breakpoints, jsRound, interp]

/-- C5: a numeric concentration outside the supported domain — negative,
or above the last band's upper bound 500.4 — matches no band and renders
the dash; nothing is clamped or extrapolated. -/
theorem out_of_domain_dash (q : ℚ) (h : q < 0 ∨ (500.4:ℚ) < q) :
    AQI (PMInput.num q) = AQIOutput.dash := by
  show numAQI q = _
  rcases findBand_cases q with ⟨n1, n2, n3, n4, n5, n6, n7, hf⟩ | ⟨a, b, hf⟩ |
      ⟨a, b, hf⟩ | ⟨a, b, hf⟩ | ⟨a, b, hf⟩ | ⟨a, b, hf⟩ | ⟨a, b, hf⟩ | ⟨a, b, hf⟩
  · exact numAQI_none q hf
  all_goals rcases h with h | h <;> linarith

/-- C5 witness: the out-of-domain theorem applied at -1.0 and at 500.5. -/
theorem out_of_domain_dash_witness :
    (((-1:ℚ) < 0 ∨ (500.4:ℚ) < -1) ∧
      AQI (PMInput.num (-1)) = AQIOutput.dash) ∧
    (((500.5:ℚ) < 0 ∨ (500.4:ℚ) < 500.5) ∧
      AQI (PMInput.num 500.5) = AQIOutput.dash) :=
  ⟨⟨Or.inl (by norm_num), out_of_domain_dash (-1) (Or.inl (by norm_num))⟩,
   ⟨Or.inr (by norm_num), out_of_domain_dash 500.5 (Or.inr (by norm_num))⟩⟩

/-- C6: on every input of any kind the component returns normally with
either the dash or a value/category result; the embedding is a total
function, mirroring that no expression in the source can throw. -/
theorem aqi_total (i : PMInput) :
    AQI i = AQIOutput.dash ∨ ∃ v c, AQI i = AQIOutput.result v c := by
  rcases hout : AQI i with - | ⟨v, c⟩
  · exact Or.inl rfl
  · exact Or.inr ⟨v, c, rfl⟩

/-- C7: for two concentrations strictly inside the same band, whenever
both render a present value, the value at the smaller concentration is at
most the value at the larger one. -/
theorem value_mono_within_band (i : ℕ) (hi : i < breakpoints.length)
    (c1 c2 : ℚ)
    (h1lo : (breakpoints.get ⟨i, hi⟩).Cl < c1)
    (h1hi : c1 < (breakpoints.get ⟨i, hi⟩).Ch)
    (h2lo : (breakpoints.get ⟨i, hi⟩).Cl < c2)
    (h2hi : c2 < (breakpoints.get ⟨i, hi⟩).Ch)
    (h12 : c1 < c2) (v1 v2 : ℤ)
    (hv1 : aqiValue (AQI (PMInput.num c1)) = some v1)
    (hv2 : aqiValue (AQI (PMInput.num c2)) = some v2) :
    v1 ≤ v2 := by
  obtain ⟨hlc, hA, -, -⟩ := table_shape i hi
  have hb1 : aqiValue (numAQI c1) = some v1 := hv1
  have hb2 : aqiValue (numAQI c2) = some v2 := hv2
  rw [numAQI_band i hi c1 (le_of_lt h1lo) (le_of_lt h1hi)] at hb1
  rw [numAQI_band i hi c2 (le_of_lt h2lo) (le_of_lt h2hi)] at hb2
  by_cases hz1 : jsRound (interp (AQIlow i) (breakpoints.get ⟨i, hi⟩) c1) = 0
  · rw [if_pos hz1] at hb1
    exact absurd hb1 (by simp [aqiValue])
  by_cases hz2 : jsRound (interp (AQIlow i) (breakpoints.get ⟨i, hi⟩) c2) = 0
  · rw [if_pos hz2] at hb2
    exact absurd hb2 (by simp [aqiValue])
  rw [if_neg hz1] at hb1
  rw [if_neg hz2] at hb2
  simp only [aqiValue, Option.some.injEq] at hb1 hb2
  have hmono := jsRound_mono
    (interp_mono (AQIlow i) (breakpoints.get ⟨i, hi⟩) hlc hA (le_of_lt h12))
  omega

/-- C7 witness: inside the first band, concentration 1 renders value 4
and concentration 2 renders value 8, and the theorem gives 4 ≤ 8. -/
theorem value_mono_within_band_witness :
    aqiValue (AQI (PMInput.num 1)) = some 4 ∧
    aqiValue (AQI (PMInput.num 2)) = some 8 ∧ (4:ℤ) ≤ 8 := by
  have hv1 : aqiValue (AQI (PMInput.num 1)) = some 4 := by
    show aqiValue (numAQI 1) = _
    norm_num [numAQI, findBand, breakpoints, jsRound, interp, aqiValue]
  have hv2 : aqiValue (AQI (PMInput.num 2)) = some 8 := by
    show aqiValue (numAQI 2) = _
    norm_num [numAQI, findBand, breakpoints, jsRound, interp, aqiValue]
  exact ⟨hv1, hv2,
    value_mono_within_band 0 (by norm_num [breakpoints]) 1 2
      (by rw [bp_get0]; norm_num) (by rw [bp_get0]; norm_num)
      (by rw [bp_get0]; norm_num) (by rw [bp_get0]; norm_num)
      (by norm_num) 4 8 hv1 hv2⟩

/-- C8: a concentration falling strictly in the gap between one band's
upper bound and the next band's lower bound matches no band, and the
component renders the dash. -/
theorem gap_dash (i : ℕ) (hi : i + 1 < breakpoints.length) (q : ℚ)
    (hlo : (breakpoints.get ⟨i, Nat.lt_of_succ_lt hi⟩).Ch < q)
    (hhi : q < (breakpoints.get ⟨i + 1, hi⟩).Cl) :
    AQI (PMInput.num q) = AQIOutput.dash := by
  show numAQI q = _
  have hi6 : i < 6 := by
    have h7 : i + 1 < 7 := by simpa [breakpoints] using hi
    omega
  interval_cases i
  · have hlo' : (12:ℚ) < q := hlo
    have hhi' : q < (12.1:ℚ) := hhi
    rcases findBand_cases q with ⟨n1, n2, n3, n4, n5, n6, n7, hf⟩ | ⟨a, b, hf⟩ |
        ⟨a, b, hf⟩ | ⟨a, b, hf⟩ | ⟨a, b, hf⟩ | ⟨a, b, hf⟩ | ⟨a, b, hf⟩ | ⟨a, b, hf⟩
    · exact numAQI_none q hf
    all_goals linarith
  · have hlo' : (35.4:ℚ) < q := hlo
    have hhi' : q < (35.5:ℚ) := hhi
    rcases findBand_cases q with ⟨n1, n2, n3, n4, n5, n6, n7, hf⟩ | ⟨a, b, hf⟩ |
        ⟨a, b, hf⟩ | ⟨a, b, hf⟩ | ⟨a, b, hf⟩ | ⟨a, b, hf⟩ | ⟨a, b, hf⟩ | ⟨a, b, hf⟩
    · exact numAQI_none q hf
    all_goals linarith
  · have hlo' : (55.4:ℚ) < q := hlo
    have hhi' : q < (55.5:ℚ) := hhi
    rcases findBand_cases q with ⟨n1, n2, n3, n4, n5, n6, n7, hf⟩ | ⟨a, b, hf⟩ |
        ⟨a, b, hf⟩ | ⟨a, b, hf⟩ | ⟨a, b, hf⟩ | ⟨a, b, hf⟩ | ⟨a, b, hf⟩ | ⟨a, b, hf⟩
    · exact numAQI_none q hf
    all_goals linarith
  · have hlo' : (150.4:ℚ) < q := hlo
    have hhi' : q < (150.5:ℚ) := hhi
    rcases findBand_cases q with ⟨n1, n2, n3, n4, n5, n6, n7, hf⟩ | ⟨a, b, hf⟩ |
        ⟨a, b, hf⟩ | ⟨a, b, hf⟩ | ⟨a, b, hf⟩ | ⟨a, b, hf⟩ | ⟨a, b, hf⟩ | ⟨a, b, hf⟩
    · exact numAQI_none q hf
    all_goals linarith
  · have hlo' : (250.4:ℚ) < q := hlo
    have hhi' : q < (250.5:ℚ) := hhi
    rcases findBand_cases q with ⟨n1, n2, n3, n4, n5, n6, n7, hf⟩ | ⟨a, b, hf⟩ |
        ⟨a, b, hf⟩ | ⟨a, b, hf⟩ | ⟨a, b, hf⟩ | ⟨a, b, hf⟩ | ⟨a, b, hf⟩ | ⟨a, b, hf⟩
    · exact numAQI_none q hf
    all_goals linarith
  · have hlo' : (350.4:ℚ) < q := hlo
    have hhi' : q < (350.5:ℚ) := hhi
    rcases findBand_cases q with ⟨n1, n2, n3, n4, n5, n6, n7, hf⟩ | ⟨a, b, hf⟩ |
        ⟨a, b, hf⟩ | ⟨a, b, hf⟩ | ⟨a, b, hf⟩ | ⟨a, b, hf⟩ | ⟨a, b, hf⟩ | ⟨a, b, hf⟩
    · exact numAQI_none q hf
    all_goals linarith

/-- C8 witness: the gap theorem applied at 12.05, strictly between the
first band's upper bound 12.0 and the second band's lower bound 12.1. -/
theorem gap_dash_witness : AQI (PMInput.num 12.05) = AQIOutput.dash :=
  gap_dash 0 (by norm_num [breakpoints]) 12.05
    (by rw [bp_get0]; norm_num) (by rw [bp_get1]; norm_num)

/-- C9: a concentration in `[0, 0.12)` matches the first band and its
interpolated index rounds to 0, so the component renders the dash even
though a band matched: a computed index of 0 is indistinguishable from
the no-match sentinel. -/
theorem first_band_zero_rounds_dash (q : ℚ) (h0 : 0 ≤ q) (h1 : q < 0.12) :
    findBand q 0 breakpoints = some (0, ⟨50, 0, 12, "Good"⟩) ∧
    jsRound (interp (AQIlow 0) ⟨50, 0, 12, "Good"⟩ q) = 0 ∧
    AQI (PMInput.num q) = AQIOutput.dash := by
  have hin : (0:ℚ) ≤ q ∧ q ≤ 12 := ⟨h0, by linarith⟩
  have hf : findBand q 0 breakpoints = some (0, ⟨50, 0, 12, "Good"⟩) := by
    simp only [breakpoints, findBand, if_pos hin]
  have he : interp 0 (⟨50, 0, 12, "Good"⟩ : Breakpoint) q = 50 / 12 * q := by
    unfold interp
    push_cast
    ring
  have hz0 : jsRound (interp 0 (⟨50, 0, 12, "Good"⟩ : Breakpoint) q) = 0 := by
    rw [he]
    unfold jsRound
    rw [Int.floor_eq_zero_iff]
    constructor
    · linarith
    · linarith
  refine ⟨hf, hz0, ?_⟩
  show numAQI q = _
  unfold numAQI
  rw [hf]
  simp [hz0]

/-- C9 witness: the zero-rounding theorem applied at concentration 0.01. -/
theorem first_band_zero_rounds_dash_witness :
    (0:ℚ) ≤ 0.01 ∧ (0.01:ℚ) < 0.12 ∧
    (findBand 0.01 0 breakpoints = some (0, ⟨50, 0, 12, "Good"⟩) ∧
     jsRound (interp (AQIlow 0) ⟨50, 0, 12, "Good"⟩ 0.01) = 0 ∧
     AQI (PMInput.num 0.01) = AQIOutput.dash) :=
  ⟨by norm_num, by norm_num,
   first_band_zero_rounds_dash 0.01 (by norm_num) (by norm_num)⟩

/-- C10: whenever the component renders a present result, the value is an
integer between 1 and 500 and the category is one of the seven listed in
the breakpoint table. -/
theorem present_result_range (inp : PMInput) (v : ℤ) (c : String)
    (h : AQI inp = AQIOutput.result v c) :
    1 ≤ v ∧ v ≤ 500 ∧ c ∈ breakpoints.map Breakpoint.category := by
  cases inp with
  | undef => exact absurd h (by simp [AQI])
  | jsNull => exact absurd h (by simp [AQI])
  | nan => exact absurd h (by simp [AQI])
  | emptyStr =>
      have h' : numAQI 0 = AQIOutput.result v c := h
      rw [numAQI_zero_dash] at h'
      exact absurd h' (by simp)
  | num q =>
      have h' : numAQI q = AQIOutput.result v c := h
      rcases findBand_cases q with ⟨n1, n2, n3, n4, n5, n6, n7, hf⟩ | ⟨a, b, hf⟩ |
          ⟨a, b, hf⟩ | ⟨a, b, hf⟩ | ⟨a, b, hf⟩ | ⟨a, b, hf⟩ | ⟨a, b, hf⟩ | ⟨a, b, hf⟩
      · rw [numAQI_none q hf] at h'
        exact absurd h' (by simp)
      · obtain ⟨hv1, hv2, hv3⟩ := result_bounds_aux q 0 ⟨50, 0, 12, "Good"⟩ v c
          (by norm_num) (by norm_num) (by norm_num) (by norm_num) a b hf h'
        exact ⟨hv1, hv2, by rw [hv3]; simp [breakpoints]⟩
      · obtain ⟨hv1, hv2, hv3⟩ := result_bounds_aux q 50
          ⟨100, 12.1, 35.4, "Moderate"⟩ v c
          (by norm_num) (by norm_num) (by norm_num) (by norm_num) a b hf h'
        exact ⟨hv1, hv2, by rw [hv3]; simp [breakpoints]⟩
      · obtain ⟨hv1, hv2, hv3⟩ := result_bounds_aux q 100
          ⟨150, 35.5, 55.4, "Unhealthy for Sensitive"⟩ v c
          (by norm_num) (by norm_num) (by norm_num) (by norm_num) a b hf h'
        exact ⟨hv1, hv2, by rw [hv3]; simp [breakpoints]⟩
      · obtain ⟨hv1, hv2, hv3⟩ := result_bounds_aux q 150
          ⟨200, 55.5, 150.4, "Unhealthy"⟩ v c
          (by norm_num) (by norm_num) (by norm_num) (by norm_num) a b hf h'
        exact ⟨hv1, hv2, by rw [hv3]; simp [breakpoints]⟩
      · obtain ⟨hv1, hv2, hv3⟩ := result_bounds_aux q 200
          ⟨300, 150.5, 250.4, "Very Unhealthy"⟩ v c
          (by norm_num) (by norm_num) (by norm_num) (by norm_num) a b hf h'
        exact ⟨hv1, hv2, by rw [hv3]; simp [breakpoints]⟩
      · obtain ⟨hv1, hv2, hv3⟩ := result_bounds_aux q 300
          ⟨400, 250.5, 350.4, "Hazardous"⟩ v c
          (by norm_num) (by norm_num) (by norm_num) (by norm_num) a b hf h'
        exact ⟨hv1, hv2, by rw [hv3]; simp [breakpoints]⟩
      · obtain ⟨hv1, hv2, hv3⟩ := result_bounds_aux q 400
          ⟨500, 350.5, 500.4, "Extremely Hazardous"⟩ v c
          (by norm_num) (by norm_num) (by norm_num) (by norm_num) a b hf h'
        exact ⟨hv1, hv2, by rw [hv3]; simp [breakpoints]⟩

/-- C10 witness: the range theorem applied to the present result at
concentration 12, whose value is 50 with category Good. -/
theorem present_result_range_witness :
    AQI (PMInput.num 12) = AQIOutput.result 50 "Good" ∧
    ((1:ℤ) ≤ 50 ∧ (50:ℤ) ≤ 500 ∧
      "Good" ∈ breakpoints.map Breakpoint.category) := by
  have h : AQI (PMInput.num 12) = AQIOutput.result 50 "Good" := by
    show numAQI 12 = _
    norm_num [numAQI, findBand, breakpoints, jsRound, interp]
  exact ⟨h, present_result_range (PMInput.num 12) 50 "Good" h⟩

end SunSafe
